import Mathlib

/-!
A shallow embedding of the hyperliquid-mcp server (TypeScript) and proofs
about it.  The embedding covers, faithfully to the source:

* a JSON value model with the serialization semantics of JSON.stringify
  (insertion-order keys, compact form, and the two-space indented form used
  when formatting responses);
* the HyperliquidClient class: its constructor, nonce generation, the
  request-signing routine signAction, and the exchange-endpoint methods
  placeOrder, cancelOrder and cancelAllOrders.  External library calls
  (ethers keccak256 and signMessage, axios POST) are passed in as explicit
  function parameters; the list of HTTP requests a method issues is
  returned alongside its result;
* the trading tool handlers (handlePlaceOrder, handlePlaceTriggerOrder,
  handleCancelOrder, handleCancelAllOrders) and the configuration loader
  getConfig;
* the tool-call dispatcher switch with its surrounding try/catch.

JavaScript truthiness tests made by the source (if (clientOrderId),
if (orderId), walletAddress || null, config.isTestnet ? : ) are modelled
by the jsTruthy helpers below: undefined is none, and the empty string,
the number 0 and false are the falsy values of the types that occur.
-/

/-- A JSON value, as the JavaScript objects the server builds.  Object
fields keep insertion order, which is the order JSON.stringify emits. -/
inductive Json where
  | null
  | bool (b : Bool)
  | num (n : Int)
  | str (s : String)
  | arr (elems : List Json)
  | obj (fields : List (String × Json))

/-- Escape one character the way JSON.stringify does for the characters
that can occur in the strings this server serializes. -/
def jsonEscapeChar (ch : Char) : String :=
  if ch = '"' then "\\\""
  else if ch = '\\' then "\\\\"
  else if ch = '\n' then "\\n"
  else if ch = '\r' then "\\r"
  else if ch = '\t' then "\\t"
  else Char.toString ch

/-- Escape a string for inclusion in serialized JSON. -/
def jsonEscape (s : String) : String :=
  String.join (s.data.map jsonEscapeChar)

mutual

/-- Compact serialization: JSON.stringify(v) with no spacing, fields in
insertion order. -/
def Json.stringify : Json → String
  | Json.null => "null"
  | Json.bool true => "true"
  | Json.bool false => "false"
  | Json.num n => toString n
  | Json.str s => "\"" ++ jsonEscape s ++ "\""
  | Json.arr xs => "[" ++ Json.stringifyItems xs ++ "]"
  | Json.obj fs => "\x7b" ++ Json.stringifyFields fs ++ "\x7d"

/-- Comma-separated serialization of array elements. -/
def Json.stringifyItems : List Json → String
  | [] => ""
  | [x] => Json.stringify x
  | x :: y :: xs => Json.stringify x ++ "," ++ Json.stringifyItems (y :: xs)

/-- Comma-separated serialization of object fields. -/
def Json.stringifyFields : List (String × Json) → String
  | [] => ""
  | [(k, v)] => "\"" ++ jsonEscape k ++ "\":" ++ Json.stringify v
  | (k, v) :: f :: fs =>
      "\"" ++ jsonEscape k ++ "\":" ++ Json.stringify v ++ "," ++
        Json.stringifyFields (f :: fs)

end

/-- A run of space characters, for the indented serialization. -/
def jsonSpaces : Nat → String
  | 0 => ""
  | n + 1 => " " ++ jsonSpaces n

mutual

/-- Indented serialization: JSON.stringify(v, null, 2), used by the
handlers when formatting a response body.  The argument is the current
indentation width. -/
def Json.pretty (ind : Nat) : Json → String
  | Json.null => "null"
  | Json.bool true => "true"
  | Json.bool false => "false"
  | Json.num n => toString n
  | Json.str s => "\"" ++ jsonEscape s ++ "\""
  | Json.arr [] => "[]"
  | Json.arr (x :: xs) =>
      "[\n" ++ Json.prettyItems (ind + 2) (x :: xs) ++ "\n" ++ jsonSpaces ind ++ "]"
  | Json.obj [] => "\x7b\x7d"
  | Json.obj (f :: fs) =>
      "\x7b\n" ++ Json.prettyFields (ind + 2) (f :: fs) ++ "\n" ++ jsonSpaces ind ++ "\x7d"

/-- Indented serialization of array elements. -/
def Json.prettyItems (ind : Nat) : List Json → String
  | [] => ""
  | [x] => jsonSpaces ind ++ Json.pretty ind x
  | x :: y :: xs =>
      jsonSpaces ind ++ Json.pretty ind x ++ ",\n" ++ Json.prettyItems ind (y :: xs)

/-- Indented serialization of object fields. -/
def Json.prettyFields (ind : Nat) : List (String × Json) → String
  | [] => ""
  | [(k, v)] => jsonSpaces ind ++ "\"" ++ jsonEscape k ++ "\": " ++ Json.pretty ind v
  | (k, v) :: f :: fs =>
      jsonSpaces ind ++ "\"" ++ jsonEscape k ++ "\": " ++ Json.pretty ind v ++ ",\n" ++
        Json.prettyFields ind (f :: fs)

end

/-- JavaScript truthiness of an optional string: undefined and the empty
string are falsy. -/
def jsTruthyStr : Option String → Bool
  | none => false
  | some s => s != ""

/-- JavaScript truthiness of an optional number: undefined and 0 are falsy. -/
def jsTruthyNum : Option Int → Bool
  | none => false
  | some n => n != 0

/-- JavaScript truthiness of an optional boolean: undefined and false are
falsy. -/
def jsTruthyBool : Option Bool → Bool
  | none => false
  | some b => b

/-- The value of an optional number where the source reads it after a
truthiness test (0 when absent). -/
def jsNumValue (o : Option Int) : Int := o.getD 0

/-- The value of an optional string where the source reads it after a
truthiness test (empty when absent). -/
def jsStrValue (o : Option String) : String := o.getD ""

/-- The expression env.X || default of the configuration loader: the
default replaces an unset or empty variable. -/
def jsOrDefault (o : Option String) (d : String) : String :=
  if jsTruthyStr o then jsStrValue o else d

/-- The expression walletAddress || null of signAction and of the exchange
request bodies: a missing or empty address becomes JSON null. -/
def vaultAddressJson : Option String → Json
  | none => Json.null
  | some a => if a = "" then Json.null else Json.str a

/-- Template interpolation of result.error (a string, or the word
undefined when absent, as a JavaScript template literal renders it). -/
def jsErrorText : Option String → String
  | some s => s
  | none => "undefined"

/-- Template interpolation of JSON.stringify(result.data, null, 2). -/
def jsonDataText : Option Json → String
  | some d => Json.pretty 0 d
  | none => "undefined"

/-- The HyperliquidConfig interface of types/hyperliquid.ts.  Optional
fields are Option; apiUrl is required by the interface. -/
structure HyperliquidConfig where
  apiUrl : String
  privateKey : Option String
  walletAddress : Option String
  isTestnet : Option Bool

/-- getConfig of utils/config.ts, with the process environment passed as a
lookup function.  isTestnet is the comparison of HYPERLIQUID_TESTNET with
the string true; the testnet URL overrides any HYPERLIQUID_API_URL. -/
def getConfig (env : String → Option String) : HyperliquidConfig :=
  let testnetFlag : Bool := env "HYPERLIQUID_TESTNET" == some "true"
  let config : HyperliquidConfig :=
    { apiUrl := jsOrDefault (env "HYPERLIQUID_API_URL") "https://api.hyperliquid.xyz",
      privateKey := env "HYPERLIQUID_PRIVATE_KEY",
      walletAddress := env "HYPERLIQUID_WALLET_ADDRESS",
      isTestnet := some testnetFlag }
  if jsTruthyBool config.isTestnet then
    { config with apiUrl := "https://api.hyperliquid-testnet.xyz" }
  else config

/-- The ethers library calls signAction makes, passed in explicitly:
toUtf8Bytes encodes a string, keccak256 hashes bytes to the 32 hash bytes
(the source round-trips them through a hex string, which the composition
absorbs), and signMessage signs bytes with a private key.  ethers
signMessage uses the deterministic RFC 6979 ECDSA nonce, so it is a
function of the key and the bytes. -/
structure EthersLib where
  toUtf8Bytes : String → List Nat
  keccak256 : List Nat → List Nat
  signMessage : String → List Nat → String

/-- One HTTP POST the client issues: the path under the base URL and the
JSON body. -/
structure HttpRequest where
  path : String
  body : Json

/-- Field lookup in a request body, for stating what a request carries. -/
def HttpRequest.bodyField (r : HttpRequest) (k : String) : Option Json :=
  match r.body with
  | Json.obj fs => fs.lookup k
  | _ => none

/-- The ApiResponse shape of types/hyperliquid.ts, with JSON payloads. -/
structure ApiResponse where
  success : Bool
  data : Option Json
  error : Option String

/-- The HyperliquidClient state after construction: the rewritten
configuration, the axios base URL, and the wallet (present exactly when a
truthy private key was configured). -/
structure HyperliquidClient where
  config : HyperliquidConfig
  baseUrl : String
  wallet : Option String

/-- The HyperliquidClient constructor: the base URL is chosen from
isTestnet alone, overwriting whatever apiUrl the configuration carried,
and the wallet is created when the private key is truthy. -/
def HyperliquidClient.init (config : HyperliquidConfig) : HyperliquidClient :=
  let apiUrl :=
    if jsTruthyBool config.isTestnet then "https://api.hyperliquid-testnet.xyz"
    else "https://api.hyperliquid.xyz"
  { config := { config with apiUrl := apiUrl },
    baseUrl := apiUrl,
    wallet := if jsTruthyStr config.privateKey then config.privateKey else none }

/-- generateNonce: the current timestamp in milliseconds, passed in as the
value Date.now() returns at the call. -/
def HyperliquidClient.generateNonce (now : Int) : Int := now

/-- signAction: fails without a wallet; otherwise serializes the object
with fields action, nonce, vaultAddress (the configured wallet address or
null) in that order, hashes the UTF-8 bytes of that string with keccak256,
and signs the hash bytes with the private key. -/
def HyperliquidClient.signAction (c : HyperliquidClient) (eth : EthersLib)
    (action : Json) (nonce : Int) : Except String String :=
  match c.wallet with
  | none => Except.error "Private key required for trading operations"
  | some key =>
      let message := Json.stringify (Json.obj
        [("action", action), ("nonce", Json.num nonce),
         ("vaultAddress", vaultAddressJson c.config.walletAddress)])
      let messageHash := eth.keccak256 (eth.toUtf8Bytes message)
      Except.ok (eth.signMessage key messageHash)

/-- The body of a POST to the exchange endpoint. -/
def exchangeBody (action : Json) (nonce : Int) (signature : String)
    (walletAddress : Option String) : Json :=
  Json.obj
    [("action", action), ("nonce", Json.num nonce),
     ("signature", Json.str signature),
     ("vaultAddress", vaultAddressJson walletAddress)]

/-- Build an ApiResponse from the outcome of an axios POST: a thrown
transport or remote error is caught and surfaced as the error message. -/
def apiResult : Except String Json → ApiResponse
  | Except.ok d => { success := true, data := some d, error := none }
  | Except.error e => { success := false, data := none, error := some e }

/-- The failure the exchange methods return when no wallet is configured:
the thrown error is caught by the same method and reported. -/
def authFailure : ApiResponse :=
  { success := false, data := none,
    error := some "Private key required for trading operations" }

/-- client.placeOrder: requires a wallet, signs the action with a fresh
nonce via signAction, POSTs the signed envelope to the exchange endpoint,
and returns the tagged result together with the requests issued.  A throw
anywhere inside is caught by the method and returned as a failure. -/
def HyperliquidClient.placeOrder (c : HyperliquidClient) (eth : EthersLib)
    (post : HttpRequest → Except String Json) (now : Int) (action : Json) :
    ApiResponse × List HttpRequest :=
  match c.wallet with
  | none => (authFailure, [])
  | some _ =>
      let nonce := HyperliquidClient.generateNonce now
      match c.signAction eth action nonce with
      | Except.error e => ({ success := false, data := none, error := some e }, [])
      | Except.ok signature =>
          let req : HttpRequest :=
            { path := "/exchange",
              body := exchangeBody action nonce signature c.config.walletAddress }
          (apiResult (post req), [req])

/-- client.cancelOrder: identical envelope construction around a cancel
action. -/
def HyperliquidClient.cancelOrder (c : HyperliquidClient) (eth : EthersLib)
    (post : HttpRequest → Except String Json) (now : Int) (action : Json) :
    ApiResponse × List HttpRequest :=
  match c.wallet with
  | none => (authFailure, [])
  | some _ =>
      let nonce := HyperliquidClient.generateNonce now
      match c.signAction eth action nonce with
      | Except.error e => ({ success := false, data := none, error := some e }, [])
      | Except.ok signature =>
          let req : HttpRequest :=
            { path := "/exchange",
              body := exchangeBody action nonce signature c.config.walletAddress }
          (apiResult (post req), [req])

/-- The action cancelAllOrders builds: a cancelByCloid action with an
empty cancels array, with no query of the open orders. -/
def cancelAllAction : Json :=
  Json.obj [("type", Json.str "cancelByCloid"), ("cancels", Json.arr [])]

/-- client.cancelAllOrders: requires a wallet and sends the empty
cancelByCloid action in a signed envelope. -/
def HyperliquidClient.cancelAllOrders (c : HyperliquidClient) (eth : EthersLib)
    (post : HttpRequest → Except String Json) (now : Int) :
    ApiResponse × List HttpRequest :=
  match c.wallet with
  | none => (authFailure, [])
  | some _ =>
      let action := cancelAllAction
      let nonce := HyperliquidClient.generateNonce now
      match c.signAction eth action nonce with
      | Except.error e => ({ success := false, data := none, error := some e }, [])
      | Except.ok signature =>
          let req : HttpRequest :=
            { path := "/exchange",
              body := exchangeBody action nonce signature c.config.walletAddress }
          (apiResult (post req), [req])

/-- The limit branch of an OrderRequest order type. -/
structure LimitOrderType where
  tif : String
deriving DecidableEq

/-- The trigger branch of an OrderRequest order type. -/
structure TriggerOrderType where
  triggerPx : String
  isMarket : Bool
  tpsl : String
deriving DecidableEq

/-- The t field of an OrderRequest: the limit and trigger keys are each
optional; the handlers set exactly one. -/
structure OrderType where
  limit : Option LimitOrderType
  trigger : Option TriggerOrderType
deriving DecidableEq

/-- The OrderRequest wire shape of types/hyperliquid.ts: abbreviated
field names, with the client order id optional. -/
structure OrderRequest where
  a : Int
  b : Bool
  p : String
  s : String
  r : Bool
  t : OrderType
  c : Option String
deriving DecidableEq

/-- The PlaceOrderAction wire shape. -/
structure PlaceOrderAction where
  type : String
  orders : List OrderRequest
deriving DecidableEq

/-- A cancel entry references the order by exchange id or by client id. -/
inductive CancelRef where
  | byOid (o : Int)
  | byCloid (c : String)
deriving DecidableEq

/-- One element of a CancelOrderAction cancels array: the asset index and
the reference the handler attached. -/
structure CancelEntry where
  a : Int
  ref : CancelRef
deriving DecidableEq

/-- The CancelOrderAction wire shape. -/
structure CancelOrderAction where
  type : String
  cancels : List CancelEntry
deriving DecidableEq

/-- Serialization of the t field: JSON.stringify omits absent keys, so
only the branch the handler set appears. -/
def OrderType.toJson (t : OrderType) : Json :=
  Json.obj
    ((match t.limit with
      | some l => [("limit", Json.obj [("tif", Json.str l.tif)])]
      | none => []) ++
     (match t.trigger with
      | some tr =>
          [("trigger", Json.obj
            [("triggerPx", Json.str tr.triggerPx), ("isMarket", Json.bool tr.isMarket),
             ("tpsl", Json.str tr.tpsl)])]
      | none => []))

/-- Serialization of an order: fields in the insertion order of the
handlers, with c appended only when the handler set it. -/
def OrderRequest.toJson (o : OrderRequest) : Json :=
  Json.obj
    ([("a", Json.num o.a), ("b", Json.bool o.b), ("p", Json.str o.p),
      ("s", Json.str o.s), ("r", Json.bool o.r), ("t", o.t.toJson)] ++
     (match o.c with
      | some cid => [("c", Json.str cid)]
      | none => []))

/-- Serialization of a place-order action. -/
def PlaceOrderAction.toJson (a : PlaceOrderAction) : Json :=
  Json.obj
    [("type", Json.str a.type),
     ("orders", Json.arr (a.orders.map OrderRequest.toJson))]

/-- Serialization of one cancel entry: the a field, then o or c. -/
def CancelEntry.toJson (e : CancelEntry) : Json :=
  Json.obj
    ([("a", Json.num e.a)] ++
     (match e.ref with
      | CancelRef.byOid o => [("o", Json.num o)]
      | CancelRef.byCloid cid => [("c", Json.str cid)]))

/-- Serialization of a cancel action. -/
def CancelOrderAction.toJson (a : CancelOrderAction) : Json :=
  Json.obj
    [("type", Json.str a.type),
     ("cancels", Json.arr (a.cancels.map CancelEntry.toJson))]

/-- The arguments of the place_order tool.  The schema requires
assetIndex, isBuy, price, size and timeInForce; reduceOnly and
clientOrderId are optional. -/
structure PlaceOrderArgs where
  assetIndex : Int
  isBuy : Bool
  price : String
  size : String
  reduceOnly : Option Bool
  timeInForce : String
  clientOrderId : Option String

/-- The arguments of the place_trigger_order tool. -/
structure TriggerOrderArgs where
  assetIndex : Int
  isBuy : Bool
  size : String
  triggerPrice : String
  isMarket : Bool
  triggerType : String
  reduceOnly : Option Bool
  clientOrderId : Option String

/-- The arguments of the cancel_order tool: only assetIndex is required
by the schema. -/
structure CancelOrderArgs where
  assetIndex : Int
  orderId : Option Int
  clientOrderId : Option String

/-- A tool handler result: the single text content entry and the error
tag (absent, hence false, on the success paths). -/
structure ToolResult where
  text : String
  isError : Bool
deriving DecidableEq

/-- The order handlePlaceOrder builds: a limit order, reduceOnly
defaulted to false, and c attached only when clientOrderId is truthy. -/
def handlePlaceOrder.buildOrder (args : PlaceOrderArgs) : OrderRequest :=
  { a := args.assetIndex, b := args.isBuy, p := args.price, s := args.size,
    r := args.reduceOnly.getD false,
    t := { limit := some { tif := args.timeInForce }, trigger := none },
    c := if jsTruthyStr args.clientOrderId then args.clientOrderId else none }

/-- The action handlePlaceOrder sends: type order with the single order. -/
def handlePlaceOrder.buildAction (args : PlaceOrderArgs) : PlaceOrderAction :=
  { type := "order", orders := [handlePlaceOrder.buildOrder args] }

/-- handlePlaceOrder: builds the action, calls client.placeOrder, and
either formats the response or throws the failure message. -/
def handlePlaceOrder (eth : EthersLib) (post : HttpRequest → Except String Json)
    (now : Int) (client : HyperliquidClient) (args : PlaceOrderArgs) :
    Except String ToolResult × List HttpRequest :=
  let action := handlePlaceOrder.buildAction args
  let result := client.placeOrder eth post now action.toJson
  if result.1.success then
    (Except.ok
      { text := "Order placed successfully!\n\n" ++ jsonDataText result.1.data,
        isError := false }, result.2)
  else
    (Except.error ("Failed to place order: " ++ jsErrorText result.1.error), result.2)

/-- The order handlePlaceTriggerOrder builds: price fixed to the string 0,
the trigger branch set and the limit branch absent. -/
def handlePlaceTriggerOrder.buildOrder (args : TriggerOrderArgs) : OrderRequest :=
  { a := args.assetIndex, b := args.isBuy, p := "0", s := args.size,
    r := args.reduceOnly.getD false,
    t := { limit := none,
           trigger := some
             { triggerPx := args.triggerPrice, isMarket := args.isMarket,
               tpsl := args.triggerType } },
    c := if jsTruthyStr args.clientOrderId then args.clientOrderId else none }

/-- The action handlePlaceTriggerOrder sends. -/
def handlePlaceTriggerOrder.buildAction (args : TriggerOrderArgs) : PlaceOrderAction :=
  { type := "order", orders := [handlePlaceTriggerOrder.buildOrder args] }

/-- handlePlaceTriggerOrder: same flow as handlePlaceOrder with the
trigger order shape and its own messages. -/
def handlePlaceTriggerOrder (eth : EthersLib) (post : HttpRequest → Except String Json)
    (now : Int) (client : HyperliquidClient) (args : TriggerOrderArgs) :
    Except String ToolResult × List HttpRequest :=
  let action := handlePlaceTriggerOrder.buildAction args
  let result := client.placeOrder eth post now action.toJson
  if result.1.success then
    (Except.ok
      { text := "Trigger order placed successfully!\n\n" ++ jsonDataText result.1.data,
        isError := false }, result.2)
  else
    (Except.error ("Failed to place trigger order: " ++ jsErrorText result.1.error),
      result.2)

/-- The cancel entry handleCancelOrder builds once its guard has passed:
the o field when orderId is truthy, otherwise the c field. -/
def handleCancelOrder.buildCancel (args : CancelOrderArgs) : CancelEntry :=
  if jsTruthyNum args.orderId then
    { a := args.assetIndex, ref := CancelRef.byOid (jsNumValue args.orderId) }
  else
    { a := args.assetIndex, ref := CancelRef.byCloid (jsStrValue args.clientOrderId) }

/-- handleCancelOrder: throws when neither id is truthy, before any client
call; otherwise builds the single-entry cancel action and calls
client.cancelOrder. -/
def handleCancelOrder (eth : EthersLib) (post : HttpRequest → Except String Json)
    (now : Int) (client : HyperliquidClient) (args : CancelOrderArgs) :
    Except String ToolResult × List HttpRequest :=
  if !jsTruthyNum args.orderId && !jsTruthyStr args.clientOrderId then
    (Except.error "Either orderId or clientOrderId must be provided", [])
  else
    let action : CancelOrderAction :=
      { type := "cancel", cancels := [handleCancelOrder.buildCancel args] }
    let result := client.cancelOrder eth post now action.toJson
    if result.1.success then
      (Except.ok
        { text := "Order cancelled successfully!\n\n" ++ jsonDataText result.1.data,
          isError := false }, result.2)
    else
      (Except.error ("Failed to cancel order: " ++ jsErrorText result.1.error),
        result.2)

/-- handleCancelAllOrders: calls client.cancelAllOrders directly. -/
def handleCancelAllOrders (eth : EthersLib) (post : HttpRequest → Except String Json)
    (now : Int) (client : HyperliquidClient) :
    Except String ToolResult × List HttpRequest :=
  let result := client.cancelAllOrders eth post now
  if result.1.success then
    (Except.ok
      { text := "All orders cancelled successfully!\n\n" ++ jsonDataText result.1.data,
        isError := false }, result.2)
  else
    (Except.error ("Failed to cancel all orders: " ++ jsErrorText result.1.error),
      result.2)

/-- The outcome of each registered handler at the incoming call, as the
dispatcher awaits it: a result, or a thrown message. -/
structure ToolHandlers where
  getAllMids : Except String ToolResult
  getL2Book : Except String ToolResult
  getCandleSnapshot : Except String ToolResult
  getOpenOrders : Except String ToolResult
  getUserFills : Except String ToolResult
  getUserFillsByTime : Except String ToolResult
  getPortfolio : Except String ToolResult
  placeOrder : Except String ToolResult
  placeTriggerOrder : Except String ToolResult
  cancelOrder : Except String ToolResult
  cancelAllOrders : Except String ToolResult

/-- The eleven tool names the dispatcher recognizes, in registry order. -/
def registeredToolNames : List String :=
  ["get_all_mids", "get_l2_book", "get_candle_snapshot", "get_open_orders",
   "get_user_fills", "get_user_fills_by_time", "get_portfolio",
   "place_order", "place_trigger_order", "cancel_order", "cancel_all_orders"]

/-- The switch of the CallToolRequestSchema handler: each recognized name
selects its handler; the default throws the unknown-tool error. -/
def callToolSwitch (h : ToolHandlers) (name : String) : Except String ToolResult :=
  if name = "get_all_mids" then h.getAllMids
  else if name = "get_l2_book" then h.getL2Book
  else if name = "get_candle_snapshot" then h.getCandleSnapshot
  else if name = "get_open_orders" then h.getOpenOrders
  else if name = "get_user_fills" then h.getUserFills
  else if name = "get_user_fills_by_time" then h.getUserFillsByTime
  else if name = "get_portfolio" then h.getPortfolio
  else if name = "place_order" then h.placeOrder
  else if name = "place_trigger_order" then h.placeTriggerOrder
  else if name = "cancel_order" then h.cancelOrder
  else if name = "cancel_all_orders" then h.cancelAllOrders
  else Except.error ("Unknown tool: " ++ name)

/-- The try/catch around the switch: every thrown message becomes a
tagged error result, so the dispatcher always returns a result. -/
def callTool (h : ToolHandlers) (name : String) : ToolResult :=
  match callToolSwitch h name with
  | Except.ok r => r
  | Except.error msg => { text := "Error: " ++ msg, isError := true }

/-- Concrete ethers primitives for evaluating the construction on
witnesses: the encoder maps characters to code points, the hash is the
identity, and the signature tags the message bytes with the key, so the
serialized message is visible in the output. -/
def ethPass : EthersLib :=
  { toUtf8Bytes := fun s => s.data.map Char.toNat,
    keccak256 := fun bs => bs,
    signMessage := fun key bs => key ++ "|" ++ String.mk (bs.map Char.ofNat) }

/-- A network stub whose every POST succeeds with a fixed payload. -/
def postOk : HttpRequest → Except String Json :=
  fun _ => Except.ok (Json.str "ok")

/-- A client built from a testnet configuration with a private key and no
wallet address. -/
def demoClientKeyed : HyperliquidClient :=
  HyperliquidClient.init
    { apiUrl := "ignored", privateKey := some "0xkey", walletAddress := none,
      isTestnet := some true }

/-- A client built from a configuration with no private key. -/
def demoClientNoKey : HyperliquidClient :=
  HyperliquidClient.init
    { apiUrl := "ignored", privateKey := none, walletAddress := none,
      isTestnet := none }

/-- A client whose configuration carries a private key and an empty
wallet address string. -/
def demoClientEmptyAddr : HyperliquidClient :=
  HyperliquidClient.init
    { apiUrl := "ignored", privateKey := some "0xkey", walletAddress := some "",
      isTestnet := none }

/-- C1 counterexample.  With a wallet address configured as the empty
string, signAction serializes vaultAddress as null, not as the configured
(empty) address string: the claim that vaultAddress is the configured
wallet address whenever one is configured fails at this input.  The
concrete primitives make the serialized message visible: the signature is
over the message with vaultAddress null, which differs from the message
the claim prescribes. -/
theorem signAction_empty_address_uses_null :
    demoClientEmptyAddr.config.walletAddress = some "" ∧
    HyperliquidClient.signAction demoClientEmptyAddr ethPass Json.null 7 =
      Except.ok "0xkey|\x7b\"action\":null,\"nonce\":7,\"vaultAddress\":null\x7d" ∧
    "0xkey|\x7b\"action\":null,\"nonce\":7,\"vaultAddress\":null\x7d" ≠
      "0xkey|\x7b\"action\":null,\"nonce\":7,\"vaultAddress\":\"\"\x7d" :=
  ⟨rfl, rfl, by decide⟩

/-- C1 (amended).  With a wallet configured, signAction returns exactly
the signature, by the configured private key, of the keccak256 hash of
the UTF-8 bytes of the JSON serialization of the object with fields
action, nonce, vaultAddress in that order — where vaultAddress is the
configured wallet address when that address is truthy (present and
non-empty) and null otherwise. -/
theorem signAction_signs_canonical_envelope (eth : EthersLib)
    (c : HyperliquidClient) (action : Json) (nonce : Int) (key : String)
    (hw : c.wallet = some key) :
    HyperliquidClient.signAction c eth action nonce =
      Except.ok (eth.signMessage key (eth.keccak256 (eth.toUtf8Bytes
        (Json.stringify (Json.obj
          [("action", action), ("nonce", Json.num nonce),
           ("vaultAddress", vaultAddressJson c.config.walletAddress)]))))) ∧
    (c.config.walletAddress = none →
      vaultAddressJson c.config.walletAddress = Json.null) ∧
    (∀ a, c.config.walletAddress = some a → a ≠ "" →
      vaultAddressJson c.config.walletAddress = Json.str a) := by
  refine ⟨?_, ?_, ?_⟩
  · unfold HyperliquidClient.signAction
    rw [hw]
  · intro h
    rw [h]
    rfl
  · intro a h ha
    rw [h]
    simp [vaultAddressJson, ha]

/-- C1 witness: at a concrete client, action and nonce the amended
theorem yields the signature over the canonical serialization, evaluated
to an explicit string. -/
theorem signAction_signs_canonical_envelope_witness :
    HyperliquidClient.signAction demoClientKeyed ethPass Json.null 7 =
      Except.ok "0xkey|\x7b\"action\":null,\"nonce\":7,\"vaultAddress\":null\x7d" :=
  (signAction_signs_canonical_envelope ethPass demoClientKeyed Json.null 7 "0xkey"
    rfl).1.trans (by rfl)

/-- C3.  Signing is a deterministic function of the action, the nonce,
the wallet key and the configured wallet address: any two clients that
agree on those (in particular the same client twice) produce the same
signature.  No randomness enters the model because ethers signMessage is
itself deterministic (RFC 6979). -/
theorem signAction_deterministic (eth : EthersLib)
    (c₁ c₂ : HyperliquidClient) (action : Json) (nonce : Int)
    (hw : c₁.wallet = c₂.wallet)
    (ha : c₁.config.walletAddress = c₂.config.walletAddress) :
    HyperliquidClient.signAction c₁ eth action nonce =
    HyperliquidClient.signAction c₂ eth action nonce := by
  unfold HyperliquidClient.signAction
  rw [hw, ha]

/-- C3 witness: two clients built from configurations differing only in
the ignored apiUrl field sign identically at a concrete input. -/
theorem signAction_deterministic_witness :
    HyperliquidClient.signAction demoClientKeyed ethPass (Json.str "act") 9 =
    HyperliquidClient.signAction
      (HyperliquidClient.init
        { apiUrl := "other", privateKey := some "0xkey", walletAddress := none,
          isTestnet := some true }) ethPass (Json.str "act") 9 :=
  signAction_deterministic ethPass demoClientKeyed
    (HyperliquidClient.init
      { apiUrl := "other", privateKey := some "0xkey", walletAddress := none,
        isTestnet := some true }) (Json.str "act") 9 rfl rfl

/-- C4 counterexample.  generateNonce is the raw current time in
milliseconds, so two successive signed requests issued within the same
millisecond carry equal nonces: the later nonce is not strictly greater
than the earlier one.  The request bodies confirm both envelopes carry
the nonce 1000. -/
theorem nonce_equal_within_millisecond :
    HyperliquidClient.generateNonce 1000 = HyperliquidClient.generateNonce 1000 ∧
    ¬ HyperliquidClient.generateNonce 1000 < HyperliquidClient.generateNonce 1000 ∧
    ((demoClientKeyed.placeOrder ethPass postOk 1000 Json.null).2.map
      (fun r => r.bodyField "nonce")) = [some (Json.num 1000)] ∧
    ((demoClientKeyed.cancelAllOrders ethPass postOk 1000).2.map
      (fun r => r.bodyField "nonce")) = [some (Json.num 1000)] :=
  ⟨rfl, by decide, rfl, rfl⟩

/-- C4 (amended).  The nonce of a signed request is the request time in
milliseconds: across successive requests it is non-decreasing whenever
the clock is, and it is strictly greater exactly when the later request
falls in a strictly later millisecond; requests within one millisecond
receive equal nonces. -/
theorem generateNonce_monotone (t₁ t₂ : Int) (h : t₁ ≤ t₂) :
    HyperliquidClient.generateNonce t₁ ≤ HyperliquidClient.generateNonce t₂ ∧
    (HyperliquidClient.generateNonce t₁ < HyperliquidClient.generateNonce t₂ ↔
      t₁ < t₂) :=
  ⟨h, Iff.rfl⟩

/-- C4 witness: from one millisecond to the next, the nonce increases. -/
theorem generateNonce_monotone_witness :
    HyperliquidClient.generateNonce 1000 ≤ HyperliquidClient.generateNonce 1001 ∧
    (HyperliquidClient.generateNonce 1000 < HyperliquidClient.generateNonce 1001 ↔
      (1000 : Int) < 1001) :=
  generateNonce_monotone 1000 1001 (by decide)

/-- C2 counterexample.  A cancel_order invocation that supplies neither a
truthy orderId nor a truthy clientOrderId, on a client with no private
key, fails with the argument-validation message rather than a failure
carrying the authentication-required error, so the claim does not hold of
every write-tool invocation on a keyless client.  (No request is issued
there either.) -/
theorem cancelOrder_missing_ids_error_not_auth :
    handleCancelOrder ethPass postOk 0 demoClientNoKey
      { assetIndex := 0, orderId := none, clientOrderId := none } =
      (Except.error "Either orderId or clientOrderId must be provided", []) ∧
    "Either orderId or clientOrderId must be provided" ≠
      "Private key required for trading operations" :=
  ⟨rfl, by decide⟩

/-- C2 (amended).  On a client with no private key every write-tool call
fails before any HTTP request is issued.  The three exchange methods of
the client return the authentication failure with an empty request list,
and each trading handler surfaces that message — except a cancel_order
invocation supplying neither a truthy orderId nor a truthy clientOrderId,
which fails first with the argument-validation error, still without any
request. -/
theorem write_tools_require_private_key (eth : EthersLib)
    (post : HttpRequest → Except String Json) (now : Int)
    (c : HyperliquidClient) (hw : c.wallet = none) (action : Json)
    (pargs : PlaceOrderArgs) (targs : TriggerOrderArgs)
    (cargs : CancelOrderArgs) :
    c.placeOrder eth post now action = (authFailure, []) ∧
    c.cancelOrder eth post now action = (authFailure, []) ∧
    c.cancelAllOrders eth post now = (authFailure, []) ∧
    handlePlaceOrder eth post now c pargs =
      (Except.error
        "Failed to place order: Private key required for trading operations", []) ∧
    handlePlaceTriggerOrder eth post now c targs =
      (Except.error
        "Failed to place trigger order: Private key required for trading operations",
        []) ∧
    ((jsTruthyNum cargs.orderId || jsTruthyStr cargs.clientOrderId) = true →
      handleCancelOrder eth post now c cargs =
        (Except.error
          "Failed to cancel order: Private key required for trading operations",
          [])) ∧
    ((jsTruthyNum cargs.orderId || jsTruthyStr cargs.clientOrderId) = false →
      handleCancelOrder eth post now c cargs =
        (Except.error "Either orderId or clientOrderId must be provided", [])) ∧
    handleCancelAllOrders eth post now c =
      (Except.error
        "Failed to cancel all orders: Private key required for trading operations",
        []) := by
  have hp : c.placeOrder eth post now action = (authFailure, []) := by
    unfold HyperliquidClient.placeOrder
    rw [hw]
  have hco : ∀ a : Json, c.cancelOrder eth post now a = (authFailure, []) := by
    intro a
    unfold HyperliquidClient.cancelOrder
    rw [hw]
  have hca : c.cancelAllOrders eth post now = (authFailure, []) := by
    unfold HyperliquidClient.cancelAllOrders
    rw [hw]
  have hp2 : ∀ a : Json, c.placeOrder eth post now a = (authFailure, []) := by
    intro a
    unfold HyperliquidClient.placeOrder
    rw [hw]
  refine ⟨hp, hco action, hca, ?_, ?_, ?_, ?_, ?_⟩
  · simp only [handlePlaceOrder, hp2]
    rfl
  · simp only [handlePlaceTriggerOrder, hp2]
    rfl
  · intro ht
    have hcond : (!jsTruthyNum cargs.orderId && !jsTruthyStr cargs.clientOrderId)
        = false := by
      cases h1 : jsTruthyNum cargs.orderId <;>
        cases h2 : jsTruthyStr cargs.clientOrderId <;>
          simp_all
    simp only [handleCancelOrder, hcond, hco]
    rfl
  · intro ht
    have hcond : (!jsTruthyNum cargs.orderId && !jsTruthyStr cargs.clientOrderId)
        = true := by
      cases h1 : jsTruthyNum cargs.orderId <;>
        cases h2 : jsTruthyStr cargs.clientOrderId <;>
          simp_all
    simp only [handleCancelOrder, hcond]
    rfl
  · simp only [handleCancelAllOrders, hca]
    rfl

/-- C2 witness: on a concrete keyless client, place_order fails with the
authentication message and issues no request. -/
theorem write_tools_require_private_key_witness :
    handlePlaceOrder ethPass postOk 0 demoClientNoKey
      { assetIndex := 0, isBuy := true, price := "50000", size := "0.1",
        reduceOnly := none, timeInForce := "Gtc", clientOrderId := none } =
      (Except.error
        "Failed to place order: Private key required for trading operations", []) :=
  (write_tools_require_private_key ethPass postOk 0 demoClientNoKey rfl Json.null
    { assetIndex := 0, isBuy := true, price := "50000", size := "0.1",
      reduceOnly := none, timeInForce := "Gtc", clientOrderId := none }
    { assetIndex := 0, isBuy := true, size := "0.1", triggerPrice := "45000",
      isMarket := true, triggerType := "sl", reduceOnly := none,
      clientOrderId := none }
    { assetIndex := 0, orderId := some 1, clientOrderId := none }).2.2.2.1

/-- C5 counterexample.  A place_order invocation that supplies the
clientOrderId as the empty string builds an order without the c field:
the claim that c is present if and only if a clientOrderId was supplied
fails, since the id was supplied but the truthiness test drops it. -/
theorem placeOrder_empty_cloid_omitted :
    (handlePlaceOrder.buildOrder
      { assetIndex := 0, isBuy := true, price := "50000", size := "0.1",
        reduceOnly := none, timeInForce := "Gtc",
        clientOrderId := some "" }).c = none ∧
    (some "" : Option String) ≠ none :=
  ⟨rfl, by decide⟩

/-- C5 (amended).  handlePlaceOrder constructs an action of type order
containing exactly the one order with a the asset index, b the side, p
the price, s the size, r the reduceOnly flag defaulted to false, and t
the limit branch with the requested time in force and no trigger branch;
the c field carries the supplied clientOrderId exactly when that id is
truthy (present and non-empty).  The Gtc example of the claim evaluates
to the stated object. -/
theorem handlePlaceOrder_action_shape (args : PlaceOrderArgs) :
    handlePlaceOrder.buildAction args =
      { type := "order", orders := [handlePlaceOrder.buildOrder args] } ∧
    (handlePlaceOrder.buildOrder args).a = args.assetIndex ∧
    (handlePlaceOrder.buildOrder args).b = args.isBuy ∧
    (handlePlaceOrder.buildOrder args).p = args.price ∧
    (handlePlaceOrder.buildOrder args).s = args.size ∧
    (handlePlaceOrder.buildOrder args).r = args.reduceOnly.getD false ∧
    (handlePlaceOrder.buildOrder args).t =
      { limit := some { tif := args.timeInForce }, trigger := none } ∧
    ((handlePlaceOrder.buildOrder args).c ≠ none ↔
      jsTruthyStr args.clientOrderId = true) ∧
    (∀ cid, args.clientOrderId = some cid → cid ≠ "" →
      (handlePlaceOrder.buildOrder args).c = some cid) ∧
    handlePlaceOrder.buildAction
      { assetIndex := 0, isBuy := true, price := "50000", size := "0.1",
        reduceOnly := none, timeInForce := "Gtc", clientOrderId := none } =
      { type := "order",
        orders := [{ a := 0, b := true, p := "50000", s := "0.1", r := false,
                     t := { limit := some { tif := "Gtc" }, trigger := none },
                     c := none }] } := by
  refine ⟨rfl, rfl, rfl, rfl, rfl, rfl, rfl, ?_, ?_, rfl⟩
  · unfold handlePlaceOrder.buildOrder
    cases hc : args.clientOrderId with
    | none => simp [jsTruthyStr, hc]
    | some cid =>
        by_cases he : cid = ""
        · rw [he] at hc
          simp [jsTruthyStr, hc]
        · simp [jsTruthyStr, hc, he]
  · intro cid hcid hne
    unfold handlePlaceOrder.buildOrder
    rw [hcid]
    simp [jsTruthyStr, hne]

/-- C5 witness: a non-empty clientOrderId is carried through as the c
field. -/
theorem handlePlaceOrder_action_shape_witness :
    (handlePlaceOrder.buildOrder
      { assetIndex := 0, isBuy := true, price := "50000", size := "0.1",
        reduceOnly := none, timeInForce := "Gtc",
        clientOrderId := some "my-order-1" }).c = some "my-order-1" :=
  ((handlePlaceOrder_action_shape
    { assetIndex := 0, isBuy := true, price := "50000", size := "0.1",
      reduceOnly := none, timeInForce := "Gtc",
      clientOrderId := some "my-order-1" }).2.2.2.2.2.2.2.2.1
    "my-order-1" rfl (by decide))

/-- C6 counterexample.  A cancel_order invocation supplying both ids with
the orderId equal to 0 builds a cancel entry with the c field (the client
order id), not the o field: the exchange-assigned id does not take
precedence there, because the truthiness test treats 0 as absent. -/
theorem cancelOrder_zero_orderId_uses_cloid :
    handleCancelOrder.buildCancel
      { assetIndex := 0, orderId := some 0, clientOrderId := some "abc" } =
      { a := 0, ref := CancelRef.byCloid "abc" } ∧
    CancelRef.byCloid "abc" ≠ CancelRef.byOid 0 :=
  ⟨rfl, by decide⟩

/-- C6 (amended).  When both an orderId and a clientOrderId are supplied
and the orderId is truthy (non-zero), the cancel entry carries the o
field with that orderId and not the client id; when the orderId is falsy
(absent or 0) and the clientOrderId truthy, the entry carries the c
field; and when neither is truthy the handler fails with the validation
error before building any action or issuing any request. -/
theorem handleCancelOrder_precedence (args : CancelOrderArgs) :
    (∀ oid, args.orderId = some oid → oid ≠ 0 →
      handleCancelOrder.buildCancel args =
        { a := args.assetIndex, ref := CancelRef.byOid oid }) ∧
    (jsTruthyNum args.orderId = false → jsTruthyStr args.clientOrderId = true →
      handleCancelOrder.buildCancel args =
        { a := args.assetIndex,
          ref := CancelRef.byCloid (jsStrValue args.clientOrderId) }) ∧
    (jsTruthyNum args.orderId = false → jsTruthyStr args.clientOrderId = false →
      ∀ (eth : EthersLib) (post : HttpRequest → Except String Json) (now : Int)
        (c : HyperliquidClient),
        handleCancelOrder eth post now c args =
          (Except.error "Either orderId or clientOrderId must be provided", [])) := by
  refine ⟨?_, ?_, ?_⟩
  · intro oid hoid hne
    unfold handleCancelOrder.buildCancel
    rw [hoid]
    simp [jsTruthyNum, jsNumValue, hne]
  · intro h1 h2
    unfold handleCancelOrder.buildCancel
    simp [h1]
  · intro h1 h2 eth post now c
    simp only [handleCancelOrder, h1, h2]
    rfl

/-- C6 witness: with orderId 12345 and a clientOrderId both supplied, the
entry carries o = 12345. -/
theorem handleCancelOrder_precedence_witness :
    handleCancelOrder.buildCancel
      { assetIndex := 0, orderId := some 12345, clientOrderId := some "abc" } =
      { a := 0, ref := CancelRef.byOid 12345 } :=
  (handleCancelOrder_precedence
    { assetIndex := 0, orderId := some 12345, clientOrderId := some "abc" }).1
    12345 rfl (by decide)

/-- C7.  Every order the two placement handlers build has exactly one
branch of the order type set: handlePlaceOrder always the limit branch
and never the trigger branch, handlePlaceTriggerOrder always the trigger
branch and never the limit branch. -/
theorem order_type_exactly_one (a₁ : PlaceOrderArgs) (a₂ : TriggerOrderArgs) :
    (handlePlaceOrder.buildOrder a₁).t.limit = some { tif := a₁.timeInForce } ∧
    (handlePlaceOrder.buildOrder a₁).t.trigger = none ∧
    (handlePlaceTriggerOrder.buildOrder a₂).t.trigger =
      some { triggerPx := a₂.triggerPrice, isMarket := a₂.isMarket,
             tpsl := a₂.triggerType } ∧
    (handlePlaceTriggerOrder.buildOrder a₂).t.limit = none :=
  ⟨rfl, rfl, rfl, rfl⟩

/-- String concatenation is associative, by associativity of the
underlying character lists. -/
theorem stringAppendAssoc (a b c : String) : a ++ b ++ c = a ++ (b ++ c) := by
  cases a with
  | mk la =>
    cases b with
    | mk lb =>
      cases c with
      | mk lc => exact congrArg String.mk (List.append_assoc la lb lc)

/-- A concrete handler table for exercising the dispatcher. -/
def demoHandlers : ToolHandlers :=
  { getAllMids := Except.ok { text := "mids", isError := false },
    getL2Book := Except.ok { text := "book", isError := false },
    getCandleSnapshot := Except.ok { text := "candles", isError := false },
    getOpenOrders := Except.ok { text := "orders", isError := false },
    getUserFills := Except.ok { text := "fills", isError := false },
    getUserFillsByTime := Except.ok { text := "fills", isError := false },
    getPortfolio := Except.ok { text := "portfolio", isError := false },
    placeOrder := Except.ok { text := "placed", isError := false },
    placeTriggerOrder := Except.ok { text := "placed", isError := false },
    cancelOrder := Except.ok { text := "cancelled", isError := false },
    cancelAllOrders := Except.ok { text := "cancelled", isError := false } }

/-- C8.  The dispatcher routes each of the eleven registered names to its
one handler; a name outside the registry yields the tagged unknown-tool
error result; every message a handler throws is caught at the boundary
and returned as a result with isError set; and a handler result is passed
through unchanged — so the dispatcher always returns a result and never
propagates a throw. -/
theorem callTool_dispatch (h : ToolHandlers) (name : String) :
    callToolSwitch h "get_all_mids" = h.getAllMids ∧
    callToolSwitch h "get_l2_book" = h.getL2Book ∧
    callToolSwitch h "get_candle_snapshot" = h.getCandleSnapshot ∧
    callToolSwitch h "get_open_orders" = h.getOpenOrders ∧
    callToolSwitch h "get_user_fills" = h.getUserFills ∧
    callToolSwitch h "get_user_fills_by_time" = h.getUserFillsByTime ∧
    callToolSwitch h "get_portfolio" = h.getPortfolio ∧
    callToolSwitch h "place_order" = h.placeOrder ∧
    callToolSwitch h "place_trigger_order" = h.placeTriggerOrder ∧
    callToolSwitch h "cancel_order" = h.cancelOrder ∧
    callToolSwitch h "cancel_all_orders" = h.cancelAllOrders ∧
    (name ∉ registeredToolNames →
      callTool h name = { text := "Error: Unknown tool: " ++ name, isError := true }) ∧
    (∀ e, callToolSwitch h name = Except.error e →
      callTool h name = { text := "Error: " ++ e, isError := true }) ∧
    (∀ r, callToolSwitch h name = Except.ok r → callTool h name = r) := by
  refine ⟨rfl, rfl, rfl, rfl, rfl, rfl, rfl, rfl, rfl, rfl, rfl, ?_, ?_, ?_⟩
  · intro hn
    simp only [registeredToolNames, List.mem_cons, List.not_mem_nil, or_false,
      not_or] at hn
    obtain ⟨n1, n2, n3, n4, n5, n6, n7, n8, n9, n10, n11⟩ := hn
    have hsw : callToolSwitch h name = Except.error ("Unknown tool: " ++ name) := by
      simp [callToolSwitch, n1, n2, n3, n4, n5, n6, n7, n8, n9, n10, n11]
    simp only [callTool, hsw]
    rw [show ("Error: Unknown tool: " : String) = "Error: " ++ "Unknown tool: "
      from rfl, stringAppendAssoc]
  · intro e he
    simp [callTool, he]
  · intro r hr
    simp [callTool, hr]

/-- C8 witness: an unregistered name produces the tagged unknown-tool
error result. -/
theorem callTool_dispatch_witness :
    callTool demoHandlers "frobnicate" =
      { text := "Error: Unknown tool: frobnicate", isError := true } :=
  (callTool_dispatch demoHandlers
    "frobnicate").2.2.2.2.2.2.2.2.2.2.2.1 (by decide)

/-- C9.  With a wallet configured, cancelAllOrders issues exactly one
request, to the exchange endpoint, whose action field is exactly the
cancelByCloid action with an empty cancels array — whatever the network
answers and with no query of the open orders (no other request exists);
handleCancelAllOrders issues exactly the same requests. -/
theorem cancelAllOrders_empty_cancel_list (eth : EthersLib)
    (post : HttpRequest → Except String Json) (now : Int)
    (c : HyperliquidClient) (k : String) (hw : c.wallet = some k) :
    ((c.cancelAllOrders eth post now).2.map
      (fun r => (r.path, r.bodyField "action"))) =
      [("/exchange", some cancelAllAction)] ∧
    cancelAllAction =
      Json.obj [("type", Json.str "cancelByCloid"), ("cancels", Json.arr [])] ∧
    (handleCancelAllOrders eth post now c).2 = (c.cancelAllOrders eth post now).2 := by
  refine ⟨?_, rfl, ?_⟩
  · unfold HyperliquidClient.cancelAllOrders HyperliquidClient.signAction
    rw [hw]
    rfl
  · simp only [handleCancelAllOrders]
    split <;> rfl

/-- C9 witness: on a concrete keyed client the single request carries the
empty cancelByCloid action to the exchange endpoint. -/
theorem cancelAllOrders_empty_cancel_list_witness :
    ((demoClientKeyed.cancelAllOrders ethPass postOk 0).2.map
      (fun r => (r.path, r.bodyField "action"))) =
      [("/exchange", some cancelAllAction)] :=
  (cancelAllOrders_empty_cancel_list ethPass postOk 0 demoClientKeyed "0xkey"
    rfl).1

/-- C10.  The base URL of a constructed client is exactly the testnet URL
when the configured isTestnet flag is true and exactly the mainnet URL
otherwise; the apiUrl field the configuration carried is overwritten by
the constructor — changing it (including through the HYPERLIQUID_API_URL
environment variable the loader reads) changes nothing about the client. -/
theorem client_base_url_from_testnet_flag (config : HyperliquidConfig)
    (url : String) (env : String → Option String) (u : String) :
    (HyperliquidClient.init config).baseUrl =
      (if config.isTestnet = some true then "https://api.hyperliquid-testnet.xyz"
       else "https://api.hyperliquid.xyz") ∧
    (HyperliquidClient.init config).config.apiUrl =
      (HyperliquidClient.init config).baseUrl ∧
    HyperliquidClient.init { config with apiUrl := url } =
      HyperliquidClient.init config ∧
    HyperliquidClient.init
      (getConfig (fun k => if k = "HYPERLIQUID_API_URL" then some u else env k)) =
      HyperliquidClient.init (getConfig env) := by
  refine ⟨?_, rfl, ?_, ?_⟩
  · cases ht : config.isTestnet with
    | none => simp [HyperliquidClient.init, jsTruthyBool, ht]
    | some b =>
        cases b <;> simp [HyperliquidClient.init, jsTruthyBool, ht]
  · cases config
    rfl
  · by_cases htn : env "HYPERLIQUID_TESTNET" = some "true" <;>
      simp [getConfig, HyperliquidClient.init, jsTruthyBool, htn]
